import Mathlib

/-!
Verification of the SafeClaw intent-bridge module
(`skills/intent_tracker/safeclaw_integration.py`).

The bridge arbitrates between two black-box collaborators (a project
assistant and a habit assistant).  We embed the collaborators as data: the
two `process_message` capabilities become functions `String → ProcResult`,
and the item-provider capabilities (`get_pending_projects`,
`get_active_habits`) become lists, representing the collaborator state at
the moment the bridge queries it.  All bridge operations are translated
directly from the Python source.
-/

namespace SafeClaw

/-- A phase descriptor: the Python code only ever reads the `"name"` key
of a phase dict. -/
structure Phase where
  name : String
deriving Repr, DecidableEq, Inhabited

/-- External entity `Project` with fields `name`, `phases`,
`current_phase`, as consumed by the bridge. -/
structure Project where
  name : String
  phases : List Phase
  current_phase : Nat
deriving Repr, DecidableEq, Inhabited

/-- External entity `Habit` with fields `name`, `streak`, `total`, as
consumed by the bridge.  Python integers are embedded as `Int`. -/
structure Habit where
  name : String
  streak : Int
  total : Int
deriving Repr, DecidableEq, Inhabited

/-- Collaborator reply of `process_message`: a dict with an `action`
string and a `response` that is a string or `None`. -/
structure ProcResult where
  action : String
  response : Option String
deriving Repr, DecidableEq, Inhabited

/-- Result dict built by `detect_and_track`: an `action` string and a
`message` that is a string or `None`. -/
structure IntentResult where
  action : String
  message : Option String
deriving Repr, DecidableEq, Inhabited

/-- State a `SafeClawIntentBridge` instance sees: the two collaborator
`process_message` behaviours and the item lists their managers would
return when queried during this call. -/
structure Bridge where
  project_process : String → ProcResult
  habit_process : String → ProcResult
  pending_projects : List Project
  active_habits : List Habit

/-- Test that `needle` occurs at the start of `hay` (character-list
helper used to realise the Python substring operator). -/
def listStarts : List Char → List Char → Bool
  | _, [] => true
  | [], _ :: _ => false
  | a :: as, b :: bs => a == b && listStarts as bs

/-- Test that `needle` occurs somewhere inside `hay`: the meaning of the
Python expression `needle in hay` on strings. -/
def listHasSub : List Char → List Char → Bool
  | [], needle => listStarts [] needle
  | a :: t, needle => listStarts (a :: t) needle || listHasSub t needle

/-- Substring test on strings, as performed by the Python `in`
operator. -/
def strContains (hay needle : String) : Bool :=
  listHasSub hay.data needle.data

/-- Lower-casing as performed by the Python `lower` method, character by
character.  `Char.toLower` maps `A`–`Z` to `a`–`z` and fixes everything
else, which agrees with Python on the ASCII and CJK text this module
handles. -/
def str_lower (s : String) : String :=
  String.mk (s.data.map Char.toLower)

/-- Literal `casual_patterns` list of `_is_casual_message`. -/
def casual_patterns : List String :=
  ["天气", "在吗", "最近", "今天", "你好", "哈啰", "hi", "hello", "hey"]

/-- Embedding of `SafeClawIntentBridge._is_casual_message`: lower-case
the text and test whether any (lower-cased) casual pattern occurs as a
substring. -/
def is_casual_message (text : String) : Bool :=
  casual_patterns.any (fun pattern => strContains (str_lower text) (str_lower pattern))

/-- Embedding of `SafeClawIntentBridge._generate_follow_up`: prefer the
first pending project, else the first active habit, else `None`.  The
phase lookup `project.phases[project.current_phase]` is embedded with
`getD`; the collaborator contract guarantees the index is in range. -/
def generate_follow_up (projects : List Project) (habits : List Habit) :
    Option String :=
  match projects with
  | project :: _ =>
      let phase_info := project.phases.getD project.current_phase default
      some ("对了，" ++ project.name ++ "进展怎么样啦？" ++ phase_info.name
            ++ "阶段有什么需要帮忙的吗？")
  | [] =>
      match habits with
      | habit :: _ =>
          some (habit.name ++ "连续" ++ toString habit.streak ++ "天了！今天做了吗？")
      | [] => none

/-- Steps 1 and 2 of `detect_and_track`: start from the dict with action
`"none"` and message `None`, adopt the project result when its action
matches, then overwrite with the habit result when its action
matches. -/
def merge_results (project_result habit_result : ProcResult) : IntentResult :=
  let result : IntentResult := { action := "none", message := none }
  let result :=
    if project_result.action == "create_project"
        || project_result.action == "update_progress" then
      { action := project_result.action, message := project_result.response }
    else result
  if habit_result.action == "create_habit"
      || habit_result.action == "log_habit" then
    { action := habit_result.action, message := habit_result.response }
  else result

/-- Embedding of `SafeClawIntentBridge.detect_and_track`: merge the two
collaborator replies, then, only when no message was set and the text is
casual, try a follow-up; the Python truthiness test `if follow_up:`
admits only a non-empty string. -/
def detect_and_track (b : Bridge) (text : String) : IntentResult :=
  let result := merge_results (b.project_process text) (b.habit_process text)
  if result.message.isNone && is_casual_message text then
    match generate_follow_up b.pending_projects b.active_habits with
    | some follow_up =>
        if follow_up == "" then result
        else { action := "follow_up", message := some follow_up }
    | none => result
  else result

/-- One project entry of the status snapshot. -/
structure ProjStatus where
  name : String
  phase : String
  progress : String
deriving Repr, DecidableEq, Inhabited

/-- One habit entry of the status snapshot. -/
structure HabitStatus where
  name : String
  streak : Int
  total : Int
deriving Repr, DecidableEq, Inhabited

/-- Snapshot dict returned by `get_status`. -/
structure StatusSnapshot where
  active_projects : Nat
  active_habits : Nat
  projects : List ProjStatus
  habits : List HabitStatus
deriving Repr, DecidableEq, Inhabited

/-- Embedding of `SafeClawIntentBridge.get_status`: the Python body only
reads collaborator state and builds a fresh dict, so the embedding
returns the snapshot together with the (unchanged) bridge state. -/
def get_status (b : Bridge) : StatusSnapshot × Bridge :=
  let projects := b.pending_projects
  let habits := b.active_habits
  ({ active_projects := projects.length
   , active_habits := habits.length
   , projects := projects.map (fun p =>
       { name := p.name
       , phase := (p.phases.getD p.current_phase default).name
       , progress := toString (p.current_phase + 1) ++ "/"
           ++ toString p.phases.length })
   , habits := habits.map (fun h =>
       { name := h.name, streak := h.streak, total := h.total }) },
   b)

/-- Embedding of the module-level `process_text`: run `detect_and_track`
on a fresh bridge (embedded as the bridge argument) and return the
message only when it is truthy (`if result["message"]:`), i.e. a
non-empty string. -/
def process_text (b : Bridge) (text : String) : Option String :=
  let result := detect_and_track b text
  match result.message with
  | some m => if m == "" then none else some m
  | none => none

/-- Fixture: a project at phase index 1 of three phases, used by
concrete witnesses. -/
def siteProject : Project :=
  { name := "Website Redesign"
  , phases := [{ name := "Planning" }, { name := "Design" }, { name := "Build" }]
  , current_phase := 1 }

/-- Fixture: both assistants report a matching action with non-null
responses. -/
def bridge_w1 : Bridge :=
  { project_process := fun _ => { action := "update_progress", response := some "p-ok" }
  , habit_process := fun _ => { action := "create_habit", response := some "h-ok" }
  , pending_projects := [], active_habits := [] }

/-- Fixture: both assistants fire, the habit response is null, and a
pending project exists, so a casual text triggers a follow-up. -/
def bridge_c1 : Bridge :=
  { project_process := fun _ => { action := "create_project", response := some "ok" }
  , habit_process := fun _ => { action := "log_habit", response := none }
  , pending_projects := [{ name := "P", phases := [{ name := "A" }], current_phase := 0 }]
  , active_habits := [] }

/-- Fixture: both assistants fire with distinct non-null responses. -/
def bridge_c2 : Bridge :=
  { project_process := fun _ => { action := "create_project", response := some "proj" }
  , habit_process := fun _ => { action := "log_habit", response := some "hab" }
  , pending_projects := [], active_habits := [] }

/-- Fixture: both assistants fire with non-null responses. -/
def bridge_w2 : Bridge :=
  { project_process := fun _ => { action := "create_project", response := some "p2" }
  , habit_process := fun _ => { action := "log_habit", response := some "h2" }
  , pending_projects := [], active_habits := [] }

/-- Fixture: the project assistant reports a matching action with a null
response and nothing else fires. -/
def bridge_c3 : Bridge :=
  { project_process := fun _ => { action := "create_project", response := none }
  , habit_process := fun _ => { action := "none", response := none }
  , pending_projects := [], active_habits := [] }

/-- Fixture: neither assistant ever reports an action. -/
def bridge_w5 : Bridge :=
  { project_process := fun _ => { action := "none", response := none }
  , habit_process := fun _ => { action := "none", response := none }
  , pending_projects := [], active_habits := [] }

/-- Fixture: silent assistants with one pending project at phase index
1. -/
def bridge_w4 : Bridge :=
  { project_process := fun _ => { action := "none", response := none }
  , habit_process := fun _ => { action := "none", response := none }
  , pending_projects := [siteProject]
  , active_habits := [] }

/-- Fixture: the project assistant fires with a message while a pending
project also exists. -/
def bridge_c4 : Bridge :=
  { project_process := fun _ => { action := "create_project", response := some "done" }
  , habit_process := fun _ => { action := "none", response := none }
  , pending_projects := [{ name := "P", phases := [{ name := "A" }], current_phase := 0 }]
  , active_habits := [] }

/-- Fixture: silent assistants with one pending project, for the status
snapshot. -/
def bridge_w7 : Bridge :=
  { project_process := fun _ => { action := "none", response := none }
  , habit_process := fun _ => { action := "none", response := none }
  , pending_projects := [siteProject]
  , active_habits := [] }

/-- Fixture: silent assistants with one pending project, queried with a
casual-by-substring text. -/
def bridge_c9 : Bridge :=
  { project_process := fun _ => { action := "none", response := none }
  , habit_process := fun _ => { action := "none", response := none }
  , pending_projects := [{ name := "P", phases := [{ name := "A" }], current_phase := 0 }]
  , active_habits := [] }

/-- Fixture: the project assistant fires with an empty-string
response. -/
def bridge_w10 : Bridge :=
  { project_process := fun _ => { action := "create_project", response := some "" }
  , habit_process := fun _ => { action := "none", response := none }
  , pending_projects := [], active_habits := [] }

/-- Appending strings concatenates their character lists. -/
theorem str_data_append (s t : String) : (s ++ t).data = s.data ++ t.data := rfl

/-- A list is a starting segment of itself followed by anything. -/
theorem listStarts_append_self (b c : List Char) : listStarts (b ++ c) b = true := by
  induction b with
  | nil => cases c <;> rfl
  | cons a as ih => simp [listStarts, ih]

/-- A starting segment is in particular a substring. -/
theorem listHasSub_of_listStarts (h n : List Char) (hs : listStarts h n = true) :
    listHasSub h n = true := by
  cases h with
  | nil => simpa [listHasSub] using hs
  | cons a t => simp [listHasSub, hs]

/-- Substring occurrence is preserved by prepending characters. -/
theorem listHasSub_append_right (a h n : List Char) (hh : listHasSub h n = true) :
    listHasSub (a ++ h) n = true := by
  induction a with
  | nil => simpa using hh
  | cons x xs ih => simp [listHasSub, ih]

/-- A middle segment of a concatenation is a substring of it. -/
theorem listHasSub_append_self (a b c : List Char) :
    listHasSub (a ++ (b ++ c)) b = true :=
  listHasSub_append_right a _ b
    (listHasSub_of_listStarts _ _ (listStarts_append_self b c))

/-- Indexing with a default value agrees with checked indexing when the
index is in range. -/
theorem getD_eq_get {α : Type} (l : List α) (i : Nat) (d : α) (h : i < l.length) :
    l.getD i d = l.get ⟨i, h⟩ := by
  induction l generalizing i with
  | nil => simp at h
  | cons x xs ih => cases i with
    | zero => rfl
    | succ j => exact ih j (by simpa using h)

/-- Indexing a mapped list with a default value, in range. -/
theorem getD_map {α β : Type} (f : α → β) (l : List α) (i : Nat) (d : β)
    (h : i < l.length) : (l.map f).getD i d = f (l.get ⟨i, h⟩) := by
  induction l generalizing i with
  | nil => simp at h
  | cons x xs ih => cases i with
    | zero => rfl
    | succ j => exact ih j (by simpa using h)

/-- When the merged result of the two detection steps still carries
action `"none"`, neither branch fired, so its message is `None`. -/
theorem merge_results_action_none (pr hr : ProcResult)
    (h : (merge_results pr hr).action = "none") :
    (merge_results pr hr).message = none := by
  unfold merge_results at *
  by_cases h1 : (hr.action == "create_habit" || hr.action == "log_habit") = true
  · simp only [Bool.or_eq_true, beq_iff_eq] at h1
    rcases h1 with h1 | h1 <;> simp [h1] at h
  · by_cases h2 : (pr.action == "create_project" || pr.action == "update_progress") = true
    · simp only [Bool.or_eq_true, beq_iff_eq] at h2
      rcases h2 with h2 | h2 <;> simp [h1, h2] at h
    · simp [h1, h2]

/-- A call to `detect_and_track` either returns the merged detection
result unchanged, or returns a follow-up with a non-empty message. -/
theorem detect_cases (b : Bridge) (text : String) :
    detect_and_track b text =
      merge_results (b.project_process text) (b.habit_process text) ∨
    ((detect_and_track b text).action = "follow_up" ∧
      ∃ fu, fu ≠ "" ∧ (detect_and_track b text).message = some fu) := by
  simp only [detect_and_track]
  split
  next hc =>
    split
    next fu hfu =>
      split
      next he => exact Or.inl rfl
      next he => exact Or.inr ⟨rfl, fu, by simpa using he, rfl⟩
    next => exact Or.inl rfl
  next => exact Or.inl rfl

/-- A string that starts with a non-empty string is non-empty. -/
theorem str_append_ne_empty (s t : String) (h : s.data ≠ []) : s ++ t ≠ "" := by
  intro he
  apply h
  have hd : (s ++ t).data = ([] : List Char) := by rw [he]
  rw [str_data_append] at hd
  exact (List.append_eq_nil.mp hd).1

/-- With a pending project whose current phase index is in range, the
follow-up generator formats the project message from that project. -/
theorem follow_up_msg_eq (p : Project) (rest : List Project) (hs : List Habit)
    (hi : p.current_phase < p.phases.length) :
    generate_follow_up (p :: rest) hs =
      some ("对了，" ++ p.name ++ "进展怎么样啦？"
        ++ (p.phases.get ⟨p.current_phase, hi⟩).name ++ "阶段有什么需要帮忙的吗？") := by
  simp only [generate_follow_up]
  rw [getD_eq_get _ _ _ hi]

/-- C1 (amended): when the project assistant reports a matching action
and the habit assistant reports a matching action with a NON-NULL
response, `detect_and_track` returns exactly the habit action and
response (the habit result overwrites the earlier project result).  The
non-null proviso is forced: a null habit response leaves the message
unset, and a casual text with a pending item then replaces the result
with a follow-up. -/
theorem detect_habit_overwrite (b : Bridge) (text : String)
    (hp : (b.project_process text).action = "create_project"
        ∨ (b.project_process text).action = "update_progress")
    (hh : (b.habit_process text).action = "create_habit"
        ∨ (b.habit_process text).action = "log_habit")
    (hr : (b.habit_process text).response ≠ none) :
    detect_and_track b text =
      { action := (b.habit_process text).action
      , message := (b.habit_process text).response } := by
  obtain ⟨m, hm⟩ := Option.ne_none_iff_exists'.mp hr
  simp only [detect_and_track, merge_results]
  rcases hh with h | h <;> rcases hp with h' | h' <;> simp [h, h', hm]

/-- Witness for C1: concrete bridge where both assistants fire with
non-null responses; the habit outcome is returned. -/
theorem detect_habit_overwrite_witness :
    detect_and_track bridge_w1 "x" =
      { action := "create_habit", message := some "h-ok" } :=
  detect_habit_overwrite bridge_w1 "x" (Or.inr rfl) (Or.inl rfl) (by decide)

/-- Counterexample for C1 as stated: with both assistants reporting a
matching action but a null habit response, on the casual text `"hi"`
with a pending project, the bridge returns a follow-up rather than the
habit action and response. -/
theorem detect_habit_overwrite_cex :
    ((bridge_c1.project_process "hi").action = "create_project"
      ∨ (bridge_c1.project_process "hi").action = "update_progress") ∧
    ((bridge_c1.habit_process "hi").action = "create_habit"
      ∨ (bridge_c1.habit_process "hi").action = "log_habit") ∧
    detect_and_track bridge_c1 "hi" ≠
      { action := (bridge_c1.habit_process "hi").action
      , message := (bridge_c1.habit_process "hi").response } := by decide

/-- C2 (amended): when both assistants report a matching action in the
same call and the habit response is non-null, the returned result is
populated by the HABIT branch — habit detection dominates project
detection, the reverse of the claimed priority. -/
theorem detect_habit_dominates (b : Bridge) (text : String) (m : String)
    (hp : (b.project_process text).action = "create_project"
        ∨ (b.project_process text).action = "update_progress")
    (hh : (b.habit_process text).action = "create_habit"
        ∨ (b.habit_process text).action = "log_habit")
    (hm : (b.habit_process text).response = some m) :
    detect_and_track b text =
      { action := (b.habit_process text).action, message := some m } := by
  simp only [detect_and_track, merge_results]
  rcases hh with h | h <;> rcases hp with h' | h' <;> simp [h, h', hm]

/-- Witness for C2: concrete bridge where both assistants fire; the
habit branch populates the result. -/
theorem detect_habit_dominates_witness :
    detect_and_track bridge_w2 "y" =
      { action := "log_habit", message := some "h2" } :=
  detect_habit_dominates bridge_w2 "y" "h2" (Or.inl rfl) (Or.inr rfl) rfl

/-- Counterexample for C2 as stated: both assistants fire, yet the
result is the habit reply, not the project reply, so project detection
does not dominate. -/
theorem detect_project_dominates_cex :
    ((bridge_c2.project_process "x").action = "create_project"
      ∨ (bridge_c2.project_process "x").action = "update_progress") ∧
    ((bridge_c2.habit_process "x").action = "create_habit"
      ∨ (bridge_c2.habit_process "x").action = "log_habit") ∧
    detect_and_track bridge_c2 "x" ≠
      { action := "create_project", message := some "proj" } ∧
    detect_and_track bridge_c2 "x" =
      { action := "log_habit", message := some "hab" } := by decide

/-- C3 (amended): one direction of the claimed invariant holds for every
input and collaborator state — a non-null message implies the action is
not `"none"`.  The converse direction is refuted separately. -/
theorem detect_message_imp_action (b : Bridge) (text : String)
    (h : (detect_and_track b text).message ≠ none) :
    (detect_and_track b text).action ≠ "none" := by
  rcases detect_cases b text with hd | ⟨ha, _⟩
  · rw [hd] at h ⊢
    intro ha
    exact h (merge_results_action_none _ _ ha)
  · simp [ha]

/-- Witness for C3: concrete call with a non-null message whose action
is not `"none"`. -/
theorem detect_message_imp_action_witness :
    (detect_and_track bridge_w1 "x").message ≠ none ∧
    (detect_and_track bridge_w1 "x").action ≠ "none" :=
  ⟨by decide, detect_message_imp_action bridge_w1 "x" (by decide)⟩

/-- Counterexample for C3 as stated: when the project assistant reports
`create_project` with a null response (allowed by the section 6
contract) on a non-casual text, the result has action `create_project`
but message `None`, violating the claimed iff. -/
theorem message_iff_action_cex :
    (detect_and_track bridge_c3 "x").action ≠ "none" ∧
    (detect_and_track bridge_c3 "x").message = none := by decide

/-- C4 (amended): for a casual text and a non-empty pending-project
list, PROVIDED the project and habit detection steps left the message
unset, `detect_and_track` returns a follow-up whose message contains the
first pending project name and the name of its phase at index
`current_phase`.  The proviso is forced: an assistant that fires with a
non-null response pre-empts the follow-up. -/
theorem detect_follow_up_project (b : Bridge) (text : String)
    (p : Project) (rest : List Project)
    (hp : b.pending_projects = p :: rest)
    (hc : is_casual_message text = true)
    (hm : (merge_results (b.project_process text) (b.habit_process text)).message = none)
    (hi : p.current_phase < p.phases.length) :
    detect_and_track b text =
      { action := "follow_up"
      , message := some ("对了，" ++ p.name ++ "进展怎么样啦？"
          ++ (p.phases.get ⟨p.current_phase, hi⟩).name ++ "阶段有什么需要帮忙的吗？") } ∧
    strContains ("对了，" ++ p.name ++ "进展怎么样啦？"
        ++ (p.phases.get ⟨p.current_phase, hi⟩).name ++ "阶段有什么需要帮忙的吗？") p.name = true ∧
    strContains ("对了，" ++ p.name ++ "进展怎么样啦？"
        ++ (p.phases.get ⟨p.current_phase, hi⟩).name ++ "阶段有什么需要帮忙的吗？")
      (p.phases.get ⟨p.current_phase, hi⟩).name = true := by
  refine ⟨?_, ?_, ?_⟩
  · have hfu := follow_up_msg_eq p rest b.active_habits hi
    have hne : "对了，" ++ p.name ++ "进展怎么样啦？"
        ++ (p.phases.get ⟨p.current_phase, hi⟩).name ++ "阶段有什么需要帮忙的吗？" ≠ "" := by
      rw [String.append_assoc, String.append_assoc, String.append_assoc]
      exact str_append_ne_empty _ _ (by decide)
    simp only [detect_and_track]
    rw [hm, hp, hfu]
    simp [hc, hne]
    exact fun h => absurd h hne
  · simp only [strContains, str_data_append, List.append_assoc]
    exact listHasSub_append_self _ _ _
  · simp only [strContains, str_data_append, List.append_assoc]
    exact listHasSub_append_right _ _ _ (listHasSub_append_right _ _ _
      (listHasSub_append_right _ _ _ (listHasSub_of_listStarts _ _
        (listStarts_append_self _ _))))

/-- Witness for C4: silent assistants, one pending project at phase
index 1 of `["Planning", "Design", "Build"]`, input `"hi"`; the
follow-up references the project and the `"Design"` phase. -/
theorem detect_follow_up_project_witness :
    is_casual_message "hi" = true ∧
    detect_and_track bridge_w4 "hi" =
      { action := "follow_up"
      , message := some "对了，Website Redesign进展怎么样啦？Design阶段有什么需要帮忙的吗？" } :=
  ⟨by decide, (detect_follow_up_project bridge_w4 "hi" siteProject [] rfl (by decide)
    (by decide) (by decide)).1⟩

/-- Counterexample for C4 as stated: the text `"hi"` contains a casual
marker and a pending project exists, yet the result is the project
assistant reply, not a follow-up, because that assistant reported a
matching action with a message. -/
theorem detect_follow_up_project_cex :
    is_casual_message "hi" = true ∧
    bridge_c4.pending_projects ≠ [] ∧
    (detect_and_track bridge_c4 "hi").action ≠ "follow_up" ∧
    detect_and_track bridge_c4 "hi" =
      { action := "create_project", message := some "done" } := by decide

/-- C6: the follow-up generator always prefers projects over habits —
with a non-empty pending-project list it formats the message from the
first project; otherwise, with a non-empty active-habit list it formats
the message from the first habit (name and streak count); otherwise it
returns `None`. -/
theorem generate_follow_up_policy :
    (∀ (p : Project) (ps : List Project) (hs : List Habit),
        generate_follow_up (p :: ps) hs =
          some ("对了，" ++ p.name ++ "进展怎么样啦？"
            ++ (p.phases.getD p.current_phase default).name ++ "阶段有什么需要帮忙的吗？")) ∧
    (∀ (h : Habit) (hs : List Habit),
        generate_follow_up [] (h :: hs) =
          some (h.name ++ "连续" ++ toString h.streak ++ "天了！今天做了吗？")) ∧
    generate_follow_up [] [] = none :=
  ⟨fun _ _ _ => rfl, fun _ _ => rfl, rfl⟩

/-- C7: in the snapshot returned by `get_status`, the entry for the
pending project at position `i` has `progress` equal to the 1-based
numerator string `(current_phase + 1)/(number of phases)` and `phase`
equal to the name of the phase descriptor at index `current_phase`. -/
theorem get_status_project_fields (b : Bridge) (i : Nat)
    (h : i < b.pending_projects.length)
    (hp : (b.pending_projects.get ⟨i, h⟩).current_phase
        < (b.pending_projects.get ⟨i, h⟩).phases.length) :
    ((get_status b).1.projects).getD i default =
      { name := (b.pending_projects.get ⟨i, h⟩).name
      , phase := ((b.pending_projects.get ⟨i, h⟩).phases.get
          ⟨(b.pending_projects.get ⟨i, h⟩).current_phase, hp⟩).name
      , progress := toString ((b.pending_projects.get ⟨i, h⟩).current_phase + 1)
          ++ "/" ++ toString (b.pending_projects.get ⟨i, h⟩).phases.length } := by
  have hproj : (get_status b).1.projects
      = b.pending_projects.map (fun p =>
          { name := p.name
          , phase := (p.phases.getD p.current_phase default).name
          , progress := toString (p.current_phase + 1) ++ "/"
              ++ toString p.phases.length : ProjStatus }) := rfl
  rw [hproj, getD_map _ _ i _ h, getD_eq_get _ _ _ hp]

/-- Witness for C7: one pending project at phase index 1 of 3 phases
renders progress `"2/3"` and phase `"Design"`. -/
theorem get_status_project_fields_witness :
    ((get_status bridge_w7).1.projects).getD 0 default =
      { name := "Website Redesign", phase := "Design", progress := "2/3" } :=
  (get_status_project_fields bridge_w7 0 (by decide) (by decide)).trans (by decide)

/-- C5: when neither collaborator reports a recognized action and the
text contains no casual marker, `detect_and_track` returns exactly the
dict with action `"none"` and message `None`. -/
theorem detect_none_result (b : Bridge) (text : String)
    (hp1 : (b.project_process text).action ≠ "create_project")
    (hp2 : (b.project_process text).action ≠ "update_progress")
    (hh1 : (b.habit_process text).action ≠ "create_habit")
    (hh2 : (b.habit_process text).action ≠ "log_habit")
    (hc : is_casual_message text = false) :
    detect_and_track b text = { action := "none", message := none } := by
  simp only [detect_and_track, merge_results]
  simp [hp1, hp2, hh1, hh2, hc]

/-- Witness for C5: silent assistants on the non-casual text `"zzz"`. -/
theorem detect_none_result_witness :
    detect_and_track bridge_w5 "zzz" = { action := "none", message := none } :=
  detect_none_result bridge_w5 "zzz" (by decide) (by decide) (by decide)
    (by decide) (by decide)

/-- C8: `get_status` is a pure, deterministic read — it leaves the
bridge state unchanged, and a second call with no intervening mutation
returns an identical snapshot. -/
theorem get_status_deterministic (b : Bridge) :
    (get_status b).2 = b ∧
    (get_status ((get_status b).2)).1 = (get_status b).1 :=
  ⟨rfl, rfl⟩

/-- C9: casual detection is a case-insensitive substring test, not a
word match — the input `"this"` contains the marker `"hi"` as a
substring, is classified as casual, and with silent collaborators and a
pending project `detect_and_track` returns a follow-up on it. -/
theorem casual_substring_follow_up :
    strContains (str_lower "this") "hi" = true ∧
    is_casual_message "this" = true ∧
    (bridge_c9.project_process "this").action = "none" ∧
    (bridge_c9.habit_process "this").action = "none" ∧
    (detect_and_track bridge_c9 "this").action = "follow_up" := by decide

/-- C10: `process_text` returns the message only when it is a truthy
string — a message equal to the empty string yields `None`, the same
signal as no action at all, and a non-empty message is returned
verbatim. -/
theorem process_text_truthiness (b : Bridge) (text : String) :
    ((detect_and_track b text).message = some "" → process_text b text = none) ∧
    (∀ m, (detect_and_track b text).message = some m → m ≠ "" →
      process_text b text = some m) := by
  constructor
  · intro h
    simp [process_text, h]
  · intro m h hm
    simp [process_text, h, hm]

/-- Witness for C10: a collaborator returning an empty-string response
produces a result with message `some ""`, and `process_text` maps it to
`None`. -/
theorem process_text_truthiness_witness :
    (detect_and_track bridge_w10 "qqq").message = some "" ∧
    process_text bridge_w10 "qqq" = none :=
  ⟨by decide, (process_text_truthiness bridge_w10 "qqq").1 (by decide)⟩

end SafeClaw
